import Mathlib

/-!
Verification development for the pixel-format conversion engine
(`u_format` helpers) and the shader-interface linking helpers
(`nir_linking_helpers`) of this repository.

The C sources are shallowly embedded: machine integers become `Nat`/`Int`
with explicit `% 2 ^ 64` where 64-bit overflow matters, byte memory becomes
`Int → Nat` maps, and the external pack/unpack function-pointer tables are
modelled as capability records plus abstract memory transformers.
-/

namespace OsMesa

/-- The pipe format layouts used by the embedded code.
Mirrors `enum util_format_layout` (only the constructors the code inspects
are distinguished; all remaining layouts fall into `other_layout`). -/
inductive FormatLayout where
  | plain
  | s3tc
  | rgtc
  | bptc
  | etc
  | subsampled
  | other_layout
  deriving DecidableEq

/-- Mirrors `enum util_format_colorspace`: RGB, sRGB, depth/stencil (ZS), YUV. -/
inductive FormatColorspace where
  | rgb
  | srgb
  | zs
  | yuv
  deriving DecidableEq

/-- Mirrors `UTIL_FORMAT_TYPE_*`: void, unsigned, signed, float. -/
inductive FormatType where
  | void
  | unsigned
  | signed
  | float
  deriving DecidableEq

/-- One entry of `util_format_description::channel`. -/
structure FormatChannel where
  type : FormatType
  normalized : Bool
  pure_integer : Bool
  size : Nat
  deriving DecidableEq

/-- The `block` sub-record of `util_format_description`. -/
structure FormatBlock where
  width : Nat
  height : Nat
  bits : Nat
  deriving DecidableEq

/-- Shallow embedding of `struct util_format_description`.  The format
identifier is an opaque `Nat` (the `pipe_format` enumeration is an external
table).  `channel` and `swizzle` are total functions on `Nat`; the C arrays
have four entries and the code only reads indices `0..3` (an out-of-range
read in C is out-of-bounds, so theorems below never depend on indices ≥ 4
except where explicitly noted). -/
structure FormatDescription where
  format : Nat
  layout : FormatLayout
  block : FormatBlock
  nr_channels : Nat
  colorspace : FormatColorspace
  channel : Nat → FormatChannel
  swizzle : Nat → Nat

/-- `PIPE_SWIZZLE_X` -/
def PIPE_SWIZZLE_X : Nat := 0
/-- `PIPE_SWIZZLE_Y` -/
def PIPE_SWIZZLE_Y : Nat := 1
/-- `PIPE_SWIZZLE_Z` -/
def PIPE_SWIZZLE_Z : Nat := 2
/-- `PIPE_SWIZZLE_W` -/
def PIPE_SWIZZLE_W : Nat := 3
/-- `PIPE_SWIZZLE_0` -/
def PIPE_SWIZZLE_0 : Nat := 4
/-- `PIPE_SWIZZLE_1` -/
def PIPE_SWIZZLE_1 : Nat := 5
/-- `PIPE_SWIZZLE_NONE` -/
def PIPE_SWIZZLE_NONE : Nat := 6

/-- Embedding of `util_is_format_compatible` from `u_format.c`.
The two `for (chan = 0; chan < 4; ++chan)` loops with early `return FALSE`
become `List.all` over `List.range 4`. -/
def util_is_format_compatible (src_desc dst_desc : FormatDescription) : Bool :=
  if src_desc.format = dst_desc.format then
    true
  else if src_desc.layout ≠ FormatLayout.plain ∨
          dst_desc.layout ≠ FormatLayout.plain then
    false
  else if src_desc.block.bits ≠ dst_desc.block.bits ∨
          src_desc.nr_channels ≠ dst_desc.nr_channels ∨
          src_desc.colorspace ≠ dst_desc.colorspace then
    false
  else if ¬ (List.range 4).all
      (fun chan => (src_desc.channel chan).size = (dst_desc.channel chan).size) then
    false
  else
    (List.range 4).all fun chan =>
      let swizzle := dst_desc.swizzle chan
      if swizzle < 4 then
        decide (src_desc.swizzle chan = swizzle) &&
        decide ((src_desc.channel swizzle).type = (dst_desc.channel swizzle).type) &&
        decide ((src_desc.channel swizzle).normalized = (dst_desc.channel swizzle).normalized)
      else
        true

/-- The compatibility relation exactly as the specification words it
(spec §4.2): identical identifier, or plain layouts, equal total block bits,
equal channel counts, equal colorspaces, matching per-channel sizes, and for
every destination channel whose swizzle names a real channel (0–3), matching
swizzle entry and matching type/normalization of the channel it selects. -/
def formatCompatibleSpec (src_desc dst_desc : FormatDescription) : Prop :=
  src_desc.format = dst_desc.format ∨
  (src_desc.layout = FormatLayout.plain ∧
   dst_desc.layout = FormatLayout.plain ∧
   src_desc.block.bits = dst_desc.block.bits ∧
   src_desc.nr_channels = dst_desc.nr_channels ∧
   src_desc.colorspace = dst_desc.colorspace ∧
   (∀ chan < 4, (src_desc.channel chan).size = (dst_desc.channel chan).size) ∧
   (∀ chan < 4, dst_desc.swizzle chan < 4 →
      src_desc.swizzle chan = dst_desc.swizzle chan ∧
      (src_desc.channel (dst_desc.swizzle chan)).type
        = (dst_desc.channel (dst_desc.swizzle chan)).type ∧
      (src_desc.channel (dst_desc.swizzle chan)).normalized
        = (dst_desc.channel (dst_desc.swizzle chan)).normalized))

/-- Byte-addressed memory.  Addresses are `Int` so the signed `src_stride`
pointer arithmetic of `util_copy_rect` embeds directly. -/
def Mem : Type := Int → Nat

/-- Semantics of one `memcpy(dst + dstOff, src + srcOff, n)`. -/
def memcpy (dst : Mem) (dstOff : Int) (src : Mem) (srcOff : Int) (n : Nat) : Mem :=
  fun a => if dstOff ≤ a ∧ a < dstOff + n then src (srcOff + (a - dstOff)) else dst a

/-- The row-by-row loop of `util_copy_rect`: `height` iterations of
`memcpy(dst, src, width)` with `dst += dst_stride; src += src_stride`. -/
def copyRows (dst : Mem) (dstOff : Int) (dstStride : Nat) (src : Mem)
    (srcOff srcStride : Int) (w : Nat) : Nat → Mem
  | 0 => dst
  | height + 1 =>
    copyRows (memcpy dst dstOff src srcOff w) (dstOff + dstStride) dstStride
      src (srcOff + srcStride) srcStride w height

/-- `util_format_get_blocksize`: block bits divided by 8 (external helper,
`desc->block.bits / 8`). -/
def util_format_get_blocksize (desc : FormatDescription) : Nat :=
  desc.block.bits / 8

/-- Embedding of `util_copy_rect` from `u_format.c`.  Positions and sizes are
scaled to block granularity, base pointers advanced, then either one bulk
`memcpy` (when both strides equal the row byte width) or the row loop runs.
The C code compares `width == (unsigned)src_stride`; the 32-bit unsigned cast
is embedded as equality with the `Int` stride, which agrees with the cast for
all strides representable in `int`. -/
def util_copy_rect (dst : Mem) (format : FormatDescription) (dst_stride : Nat)
    (dst_x dst_y width height : Nat) (src : Mem) (src_stride : Int)
    (src_x src_y : Nat) : Mem :=
  let src_stride_pos : Int := if src_stride < 0 then -src_stride else src_stride
  let blocksize := util_format_get_blocksize format
  let blockwidth := format.block.width
  let blockheight := format.block.height
  let dst_x := dst_x / blockwidth
  let dst_y := dst_y / blockheight
  let width := (width + blockwidth - 1) / blockwidth
  let height := (height + blockheight - 1) / blockheight
  let src_x := src_x / blockwidth
  let src_y := src_y / blockheight
  let dstOff : Int := (dst_x * blocksize : Nat) + (dst_y * dst_stride : Nat)
  let srcOff : Int := (src_x * blocksize : Nat) + src_y * src_stride_pos
  let width := width * blocksize
  if width = dst_stride ∧ (width : Int) = src_stride then
    memcpy dst dstOff src srcOff (height * width)
  else
    copyRows dst dstOff dst_stride src srcOff src_stride width height

/-- `util_format_get_first_non_void_channel`.  Modelled from the spec: the
helper lives in the external descriptor-access header; per spec §4.1 it
inspects the first channel whose type is not void and yields -1 when all
four are void. -/
def util_format_get_first_non_void_channel (desc : FormatDescription) : Int :=
  if (desc.channel 0).type ≠ FormatType.void then 0
  else if (desc.channel 1).type ≠ FormatType.void then 1
  else if (desc.channel 2).type ≠ FormatType.void then 2
  else if (desc.channel 3).type ≠ FormatType.void then 3
  else -1

/-- Embedding of `util_format_is_pure_sint` (the descriptor lookup by format
identifier is fused: the embedding passes descriptors directly). -/
def util_format_is_pure_sint (desc : FormatDescription) : Bool :=
  let i := util_format_get_first_non_void_channel desc
  if i = -1 then false
  else
    (desc.channel i.toNat).type = FormatType.signed ∧
      (desc.channel i.toNat).pure_integer = true

/-- Embedding of `util_format_is_pure_uint`. -/
def util_format_is_pure_uint (desc : FormatDescription) : Bool :=
  let i := util_format_get_first_non_void_channel desc
  if i = -1 then false
  else
    (desc.channel i.toNat).type = FormatType.unsigned ∧
      (desc.channel i.toNat).pure_integer = true

/-- Format identifiers enumerated by `util_format_fits_8unorm`'s special
cases.  The `pipe_format` enumeration is an external table; these opaque
identifiers only need to be mutually distinct. -/
def PIPE_FORMAT_RGTC1_SNORM : Nat := 101
/-- Opaque identifier for `PIPE_FORMAT_RGTC2_SNORM`. -/
def PIPE_FORMAT_RGTC2_SNORM : Nat := 102
/-- Opaque identifier for `PIPE_FORMAT_LATC1_SNORM`. -/
def PIPE_FORMAT_LATC1_SNORM : Nat := 103
/-- Opaque identifier for `PIPE_FORMAT_LATC2_SNORM`. -/
def PIPE_FORMAT_LATC2_SNORM : Nat := 104
/-- Opaque identifier for `PIPE_FORMAT_BPTC_RGBA_UNORM`. -/
def PIPE_FORMAT_BPTC_RGBA_UNORM : Nat := 105
/-- Opaque identifier for `PIPE_FORMAT_ETC1_RGB8`. -/
def PIPE_FORMAT_ETC1_RGB8 : Nat := 106
/-- Opaque identifier for `PIPE_FORMAT_R1_UNORM`. -/
def PIPE_FORMAT_R1_UNORM : Nat := 107
/-- Opaque identifier for `PIPE_FORMAT_UYVY`. -/
def PIPE_FORMAT_UYVY : Nat := 108
/-- Opaque identifier for `PIPE_FORMAT_YUYV`. -/
def PIPE_FORMAT_YUYV : Nat := 109
/-- Opaque identifier for `PIPE_FORMAT_R8G8_B8G8_UNORM`. -/
def PIPE_FORMAT_R8G8_B8G8_UNORM : Nat := 110
/-- Opaque identifier for `PIPE_FORMAT_G8R8_G8B8_UNORM`. -/
def PIPE_FORMAT_G8R8_G8B8_UNORM : Nat := 111

/-- Embedding of `util_format_fits_8unorm` from `u_format.c`. -/
def util_format_fits_8unorm (format_desc : FormatDescription) : Bool :=
  if format_desc.colorspace = FormatColorspace.srgb then
    false
  else
    match format_desc.layout with
    | FormatLayout.s3tc => true
    | FormatLayout.rgtc =>
      if format_desc.format = PIPE_FORMAT_RGTC1_SNORM ∨
         format_desc.format = PIPE_FORMAT_RGTC2_SNORM ∨
         format_desc.format = PIPE_FORMAT_LATC1_SNORM ∨
         format_desc.format = PIPE_FORMAT_LATC2_SNORM then false
      else true
    | FormatLayout.bptc =>
      if format_desc.format = PIPE_FORMAT_BPTC_RGBA_UNORM then true else false
    | FormatLayout.etc =>
      if format_desc.format = PIPE_FORMAT_ETC1_RGB8 then true else false
    | FormatLayout.plain =>
      (List.range format_desc.nr_channels).all fun chan =>
        match (format_desc.channel chan).type with
        | FormatType.void => true
        | FormatType.unsigned =>
          (format_desc.channel chan).normalized &&
            decide ((format_desc.channel chan).size ≤ 8)
        | _ => false
    | _ =>
      if format_desc.format = PIPE_FORMAT_R1_UNORM ∨
         format_desc.format = PIPE_FORMAT_UYVY ∨
         format_desc.format = PIPE_FORMAT_YUYV ∨
         format_desc.format = PIPE_FORMAT_R8G8_B8G8_UNORM ∨
         format_desc.format = PIPE_FORMAT_G8R8_G8B8_UNORM then true
      else false

/-- Capability half of `struct util_format_unpack_description`: which of the
external unpack function pointers are non-NULL. -/
structure UnpackDescription where
  unpack_rgba_8unorm : Bool
  unpack_rgba : Bool
  unpack_z_float : Bool
  unpack_s_8uint : Bool
  deriving DecidableEq

/-- Capability half of `struct util_format_pack_description`: which of the
external pack function pointers are non-NULL. -/
structure PackDescription where
  pack_rgba_8unorm : Bool
  pack_rgba_uint : Bool
  pack_rgba_sint : Bool
  pack_rgba_float : Bool
  pack_z_float : Bool
  pack_s_8uint : Bool
  deriving DecidableEq

/-- The destination-memory effect of each non-trivial conversion path of
`util_format_translate`.  The per-row unpack/pack function bodies are
external format codecs; each path's whole batch loop is abstracted as one
memory transformer (no claim depends on the converted byte values). -/
structure FormatOps where
  run_8unorm : Mem → Mem
  run_sint : Mem → Mem
  run_uint : Mem → Mem
  run_float : Mem → Mem
  run_z : Mem → Mem
  run_s : Mem → Mem

/-- The row-group step of `util_format_translate`:
`y_step = MAX2(dst block height, src block height)`. -/
def translate_y_step (dst_format_desc src_format_desc : FormatDescription) : Nat :=
  max dst_format_desc.block.height src_format_desc.block.height

/-- Embedding of `util_format_translate` from `u_format.c`.  Returns `none`
exactly where the C code returns FALSE, and `some` of the updated
destination memory where it returns TRUE.  `alloc` models whether the
`malloc` calls for scratch buffers succeed.  On the depth/stencil path,
`tmp_z` (resp. `tmp_s`) is non-NULL iff both capabilities are present and
the allocation succeeded; the scanline loop over that buffer is abstracted
as `ops.run_z` (resp. `ops.run_s`).  The batch loops of the remaining paths
are abstracted likewise. -/
def util_format_translate (dst_format_desc : FormatDescription) (dst : Mem)
    (dst_stride dst_x dst_y : Nat) (src_format_desc : FormatDescription)
    (src : Mem) (src_stride src_x src_y width height : Nat)
    (pack : PackDescription) (unpack : UnpackDescription) (ops : FormatOps)
    (alloc : Bool) : Option Mem :=
  if util_is_format_compatible src_format_desc dst_format_desc then
    some (util_copy_rect dst dst_format_desc dst_stride dst_x dst_y
      width height src (src_stride : Int) src_x src_y)
  else if src_format_desc.colorspace = FormatColorspace.zs ∨
          dst_format_desc.colorspace = FormatColorspace.zs then
    let tmp_z := unpack.unpack_z_float && pack.pack_z_float && alloc
    let tmp_s := unpack.unpack_s_8uint && pack.pack_s_8uint && alloc
    let m1 := if tmp_z then ops.run_z dst else dst
    let m2 := if tmp_s then ops.run_s m1 else m1
    some m2
  else if util_format_fits_8unorm src_format_desc ∨
          util_format_fits_8unorm dst_format_desc then
    if ¬ (unpack.unpack_rgba_8unorm && pack.pack_rgba_8unorm) then none
    else if ¬ alloc then none
    else some (ops.run_8unorm dst)
  else if util_format_is_pure_sint src_format_desc ∨
          util_format_is_pure_sint dst_format_desc then
    if util_format_is_pure_sint src_format_desc ≠
        util_format_is_pure_sint dst_format_desc then none
    else if ¬ alloc then none
    else some (ops.run_sint dst)
  else if util_format_is_pure_uint src_format_desc ∨
          util_format_is_pure_uint dst_format_desc then
    if ¬ (unpack.unpack_rgba && pack.pack_rgba_uint) then none
    else if ¬ alloc then none
    else some (ops.run_uint dst)
  else
    if ¬ (unpack.unpack_rgba && pack.pack_rgba_float) then none
    else if ¬ alloc then none
    else some (ops.run_float dst)

/-- Descriptor of a pure-signed-integer one-channel 32-bit format
(`PIPE_FORMAT_R32_SINT`), transcribed from the external descriptor table:
plain layout, 1×1 block of 32 bits, one signed pure-integer channel. -/
def descR32Sint : FormatDescription where
  format := 1
  layout := FormatLayout.plain
  block := ⟨1, 1, 32⟩
  nr_channels := 1
  colorspace := FormatColorspace.rgb
  channel := fun i =>
    if i = 0 then ⟨FormatType.signed, false, true, 32⟩
    else ⟨FormatType.void, false, false, 0⟩
  swizzle := fun i =>
    if i = 0 then PIPE_SWIZZLE_X
    else if i = 3 then PIPE_SWIZZLE_1 else PIPE_SWIZZLE_0

/-- Descriptor of a pure-unsigned-integer one-channel 32-bit format
(`PIPE_FORMAT_R32_UINT`), transcribed from the external descriptor table. -/
def descR32Uint : FormatDescription where
  format := 2
  layout := FormatLayout.plain
  block := ⟨1, 1, 32⟩
  nr_channels := 1
  colorspace := FormatColorspace.rgb
  channel := fun i =>
    if i = 0 then ⟨FormatType.unsigned, false, true, 32⟩
    else ⟨FormatType.void, false, false, 0⟩
  swizzle := fun i =>
    if i = 0 then PIPE_SWIZZLE_X
    else if i = 3 then PIPE_SWIZZLE_1 else PIPE_SWIZZLE_0

/-- Descriptor of a depth format (`PIPE_FORMAT_Z24X8_UNORM`-like),
transcribed from the external descriptor table: ZS colorspace, 1×1 block of
32 bits, a 24-bit normalized unsigned depth channel. -/
def descZ24 : FormatDescription where
  format := 3
  layout := FormatLayout.plain
  block := ⟨1, 1, 32⟩
  nr_channels := 2
  colorspace := FormatColorspace.zs
  channel := fun i =>
    if i = 0 then ⟨FormatType.unsigned, true, false, 24⟩
    else ⟨FormatType.void, false, false, 8⟩
  swizzle := fun i =>
    if i = 0 then PIPE_SWIZZLE_X else PIPE_SWIZZLE_NONE

/-- A `FormatOps` record whose abstract path effects all leave memory
unchanged; used to instantiate theorems at concrete inputs. -/
def idOps : FormatOps where
  run_8unorm := id
  run_sint := id
  run_uint := id
  run_float := id
  run_z := id
  run_s := id

/-- An all-present pack-capability table. -/
def allPack : PackDescription where
  pack_rgba_8unorm := true
  pack_rgba_uint := true
  pack_rgba_sint := true
  pack_rgba_float := true
  pack_z_float := true
  pack_s_8uint := true

/-- An all-present unpack-capability table. -/
def allUnpack : UnpackDescription where
  unpack_rgba_8unorm := true
  unpack_rgba := true
  unpack_z_float := true
  unpack_s_8uint := true

/-- An all-absent pack-capability table. -/
def noPack : PackDescription where
  pack_rgba_8unorm := false
  pack_rgba_uint := false
  pack_rgba_sint := false
  pack_rgba_float := false
  pack_z_float := false
  pack_s_8uint := false

/-- An all-absent unpack-capability table. -/
def noUnpack : UnpackDescription where
  unpack_rgba_8unorm := false
  unpack_rgba := false
  unpack_z_float := false
  unpack_s_8uint := false

/-- Embedding of `util_get_depth_format_mrd` from `u_format.c`: the minimum
resolvable difference used by depth bias.  The swizzled depth channel is
`desc->swizzle[0]`; a normalized unsigned channel of `n` bits yields
`1.0 / ((1ULL << n) - 1)`, anything else keeps the D24 default
`1.0 / ((1 << 24) - 1)`.  The C function computes in IEEE double; the
embedding uses exact rational arithmetic for the same expressions. -/
def util_get_depth_format_mrd (desc : FormatDescription) : ℚ :=
  let mrd : ℚ := 1 / ((2 : ℚ) ^ 24 - 1)
  let depth_channel := desc.swizzle 0
  if (desc.channel depth_channel).type = FormatType.unsigned ∧
      (desc.channel depth_channel).normalized = true then
    1 / ((2 : ℚ) ^ (desc.channel depth_channel).size - 1)
  else
    mrd

/-- Descriptor of a hypothetical 8-bit normalized unsigned depth format
(the MRD computation is defined on any descriptor whose swizzled depth
channel is unorm). -/
def descD8 : FormatDescription where
  format := 4
  layout := FormatLayout.plain
  block := ⟨1, 1, 8⟩
  nr_channels := 1
  colorspace := FormatColorspace.zs
  channel := fun i =>
    if i = 0 then ⟨FormatType.unsigned, true, false, 8⟩
    else ⟨FormatType.void, false, false, 0⟩
  swizzle := fun i =>
    if i = 0 then PIPE_SWIZZLE_X else PIPE_SWIZZLE_NONE

/-- Embedding of `pipe_swizzle_4f` from `u_format.c`.  For each destination
component the loop copies the named source component or writes the constant
0/1; a swizzle entry that is none of those (e.g. `PIPE_SWIZZLE_NONE`) writes
nothing, so the destination keeps its previous value. -/
def pipe_swizzle_4f (dst src : Fin 4 → ℚ) (swz : Fin 4 → Nat) : Fin 4 → ℚ :=
  fun i =>
    if h : swz i ≤ PIPE_SWIZZLE_W then src ⟨swz i, Nat.lt_of_le_of_lt h (by decide)⟩
    else if swz i = PIPE_SWIZZLE_0 then 0
    else if swz i = PIPE_SWIZZLE_1 then 1
    else dst i

/-- The `is_integer` branch of `util_format_apply_color_swizzle` from
`u_format.c` (the `union pipe_color_union` is split per view: this is the
`ui` view).  The switch copies channels 0–3 and defaults to
`(swz[c] == PIPE_SWIZZLE_1) ? 1 : 0`. -/
def util_format_apply_color_swizzle_ui (src : Fin 4 → Nat)
    (swz : Fin 4 → Nat) : Fin 4 → Nat :=
  fun c =>
    if h : swz c ≤ PIPE_SWIZZLE_W then src ⟨swz c, Nat.lt_of_le_of_lt h (by decide)⟩
    else if swz c = PIPE_SWIZZLE_1 then 1
    else 0

/-- The float branch of `util_format_apply_color_swizzle` (the `f` view of
the union): identical structure with literals `1.0f` / `0.0f`. -/
def util_format_apply_color_swizzle_f (src : Fin 4 → ℚ)
    (swz : Fin 4 → Nat) : Fin 4 → ℚ :=
  fun c =>
    if h : swz c ≤ PIPE_SWIZZLE_W then src ⟨swz c, Nat.lt_of_le_of_lt h (by decide)⟩
    else if swz c = PIPE_SWIZZLE_1 then 1
    else 0

/-- `VARYING_SLOT_VAR0` from the external `shader_enums.h`: the first
generic varying slot. -/
def VARYING_SLOT_VAR0 : Nat := 32
/-- `VARYING_SLOT_TESS_LEVEL_OUTER` from `shader_enums.h`. -/
def VARYING_SLOT_TESS_LEVEL_OUTER : Nat := 26
/-- `VARYING_SLOT_BOUNDING_BOX1` from `shader_enums.h`. -/
def VARYING_SLOT_BOUNDING_BOX1 : Nat := 29
/-- `VARYING_SLOT_PATCH0` from `shader_enums.h`: the first per-patch slot. -/
def VARYING_SLOT_PATCH0 : Nat := 64

/-- The `nir_variable_mode` values the linking helpers distinguish. -/
inductive VarMode where
  | shader_in
  | shader_out
  | system_value
  | shader_temp
  | other_mode
  deriving DecidableEq

/-- The `gl_shader_stage` values the linking helpers distinguish. -/
inductive ShaderStage where
  | vertex
  | tess_ctrl
  | tess_eval
  | geometry
  | fragment
  deriving DecidableEq

/-- Shallow embedding of the `nir_variable` fields the linking helpers read
and write.  The external glsl type system is flattened into the query
results the code uses:
* `type_slots` / `elem_type_slots` — `glsl_count_attribute_slots(_, false)`
  of the declared type and of its array element (used when
  `nir_is_per_vertex_io(var, stage) || var->data.per_view` holds);
* `type_length` / `elem_type_length` — `glsl_get_length` likewise;
* `without_array_vector_elements` / `without_array_is_struct` —
  `glsl_get_vector_elements` / `glsl_type_is_struct_or_ifc` applied to
  `glsl_without_array(var->type)`;
* `per_vertex` — the stage-dependent external predicate
  `nir_is_per_vertex_io(var, stage)`, precomputed for the variable's stage;
* `always_active` — `var->data.always_active_io`. -/
structure NirVariable where
  mode : VarMode
  location : Int
  location_frac : Nat
  patch : Bool
  per_view : Bool
  per_vertex : Bool
  always_active : Bool
  explicit_xfb_buffer : Bool
  compact : Bool
  driver_location : Nat
  type_slots : Nat
  elem_type_slots : Nat
  type_length : Nat
  elem_type_length : Nat
  without_array_vector_elements : Nat
  without_array_is_struct : Bool
  deriving DecidableEq

/-- The only instruction shape the linking helpers inspect: an intrinsic
`load_deref` whose deref has a given mode and resolves
(`nir_deref_instr_get_variable`) to a given variable.  Every other
instruction is `other_instr`. -/
inductive NirInstr where
  | load_deref (mode : VarMode) (var : NirVariable)
  | other_instr
  deriving DecidableEq

/-- A shader as the linking helpers see it: its stage, its variable list and
the instructions of its function bodies (flattened). -/
structure NirShader where
  stage : ShaderStage
  vars : List NirVariable
  body : List NirInstr
  deriving DecidableEq

/-- Embedding of `get_variable_io_mask` from `nir_linking_helpers.c`:
`((1ull << slots) - 1) << location` in 64-bit arithmetic, the location first
stripped of the `VARYING_SLOT_PATCH0` bias for patch variables; a negative
location yields 0 (the early return). -/
def get_variable_io_mask (var : NirVariable) : Nat :=
  if var.location < 0 then 0
  else
    let location := if var.patch then (var.location - (VARYING_SLOT_PATCH0 : Int)).toNat
      else var.location.toNat
    let slots := if var.per_vertex ∨ var.per_view then var.elem_type_slots
      else var.type_slots
    ((2 ^ slots - 1) * 2 ^ location) % 2 ^ 64

/-- Embedding of `get_num_components`: 4 for structs/interfaces, else the
vector element count of the type without arrays. -/
def get_num_components (var : NirVariable) : Nat :=
  if var.without_array_is_struct then 4
  else var.without_array_vector_elements

/-- One `masks[idx] |= v` update on a `uint64_t masks[4]` array (the array
is modelled as a total function on the index). -/
def orAt (m : Nat → Nat) (idx v : Nat) : Nat → Nat :=
  fun k => if k = idx then m idx ||| v else m k

/-- The inner loop shared by the mask-gathering passes:
`for (i = 0; i < get_num_components(var); i++) masks[frac + i] |= mask`. -/
def addVarBits (m : Nat → Nat) (var : NirVariable) : Nat → Nat :=
  (List.range (get_num_components var)).foldl
    (fun acc i => orAt acc (var.location_frac + i) (get_variable_io_mask var)) m

/-- One instruction step of `tcs_add_output_reads`: a `load_deref` whose
deref mode is `shader_out` ORs the loaded variable's io mask into the
per-component read masks (patch variables into the patch masks). -/
def tcs_read_step (acc : (Nat → Nat) × (Nat → Nat)) (instr : NirInstr) :
    (Nat → Nat) × (Nat → Nat) :=
  match instr with
  | NirInstr.load_deref mode v =>
    if mode = VarMode.shader_out then
      if v.patch then (acc.1, addVarBits acc.2 v)
      else (addVarBits acc.1 v, acc.2)
    else acc
  | NirInstr.other_instr => acc

/-- Embedding of `tcs_add_output_reads` from `nir_linking_helpers.c`: scan
the producer's own instructions for loads of its own outputs and accumulate
their io masks into the read masks. -/
def tcs_add_output_reads (shader : NirShader) (read patches_read : Nat → Nat) :
    (Nat → Nat) × (Nat → Nat) :=
  shader.body.foldl tcs_read_step (read, patches_read)

/-- The per-variable step of `nir_remove_unused_io_vars`: skip builtins
(assigned locations below `VARYING_SLOT_VAR0`), always-active and
explicit-transform-feedback variables; demote a variable whose io mask does
not intersect `used[location_frac]` to a global (`shader_temp`, location 0). -/
def remove_unused_io_var (used_by_other_stage used_by_other_stage_patches : Nat → Nat)
    (var : NirVariable) : NirVariable :=
  let used := if var.patch then used_by_other_stage_patches else used_by_other_stage
  if var.location < (VARYING_SLOT_VAR0 : Int) ∧ 0 ≤ var.location then var
  else if var.always_active = true then var
  else if var.explicit_xfb_buffer = true then var
  else if used var.location_frac &&& get_variable_io_mask var = 0 then
    { var with location := 0, mode := VarMode.shader_temp }
  else var

/-- Embedding of `nir_remove_unused_io_vars` from `nir_linking_helpers.c`,
applied to every variable of the given mode.  The returned `progress` flag
and the trailing `nir_fixup_deref_modes` call (which rewrites deref
instructions, not variables) are not modelled: no claim concerns them. -/
def nir_remove_unused_io_vars (shader : NirShader) (mode : VarMode)
    (used_by_other_stage used_by_other_stage_patches : Nat → Nat) : NirShader :=
  { shader with
    vars := shader.vars.map fun var =>
      if var.mode = mode then
        remove_unused_io_var used_by_other_stage used_by_other_stage_patches var
      else var }

/-- The mask-gathering loops at the head of `nir_remove_unused_varyings`:
accumulate the io masks of all variables of a mode into per-component
(written or read) masks, patch variables separately. -/
def gatherModeMasks (vars : List NirVariable) (mode : VarMode) :
    (Nat → Nat) × (Nat → Nat) :=
  vars.foldl
    (fun acc var =>
      if var.mode = mode then
        if var.patch then (acc.1, addVarBits acc.2 var)
        else (addVarBits acc.1 var, acc.2)
      else acc)
    (fun _ => 0, fun _ => 0)

/-- Embedding of `nir_remove_unused_varyings` from `nir_linking_helpers.c`:
gather written/read masks, OR the producer's own output reads into the read
masks when the producer is a tessellation-control shader, then demote unused
producer outputs and consumer inputs. -/
def nir_remove_unused_varyings (producer consumer : NirShader) :
    NirShader × NirShader :=
  let written := gatherModeMasks producer.vars VarMode.shader_out
  let readm := gatherModeMasks consumer.vars VarMode.shader_in
  let readm := if producer.stage = ShaderStage.tess_ctrl then
      tcs_add_output_reads producer readm.1 readm.2
    else readm
  (nir_remove_unused_io_vars producer VarMode.shader_out readm.1 readm.2,
   nir_remove_unused_io_vars consumer VarMode.shader_in written.1 written.2)

/-- Shallow embedding of `struct varying_component` (the `var` pointer
carries the variable whose `data.location` the comparator reads). -/
structure varying_component where
  var : NirVariable
  interp_type : Nat
  interp_loc : Nat
  is_32bit : Bool
  is_patch : Bool
  is_intra_stage_only : Bool
  initialised : Bool
  deriving DecidableEq

/-- Embedding of `cmp_varying_component` from `nir_linking_helpers.c`, the
qsort comparator for varying components. -/
def cmp_varying_component (comp1 comp2 : varying_component) : Int :=
  if comp1.is_patch ≠ comp2.is_patch then
    (if comp1.is_patch then 1 else -1)
  else if comp1.is_intra_stage_only ≠ comp2.is_intra_stage_only then
    (if comp1.is_intra_stage_only then 1 else -1)
  else if comp1.interp_type ≠ comp2.interp_type then
    (comp1.interp_type : Int) - (comp2.interp_type : Int)
  else if comp1.interp_loc ≠ comp2.interp_loc then
    (comp1.interp_loc : Int) - (comp2.interp_loc : Int)
  else
    comp1.var.location - comp2.var.location

/-- The strict order the spec describes for the sort: patch records last,
intra-stage-only records last within each patch group, then interpolation
mode, interpolation location, and the variable's original slot,
lexicographically (`false < true` on the flags). -/
def varyingKeyLt (c1 c2 : varying_component) : Prop :=
  (c1.is_patch = false ∧ c2.is_patch = true) ∨
  (c1.is_patch = c2.is_patch ∧
    ((c1.is_intra_stage_only = false ∧ c2.is_intra_stage_only = true) ∨
     (c1.is_intra_stage_only = c2.is_intra_stage_only ∧
       (c1.interp_type < c2.interp_type ∨
        (c1.interp_type = c2.interp_type ∧
          (c1.interp_loc < c2.interp_loc ∨
           (c1.interp_loc = c2.interp_loc ∧
             c1.var.location < c2.var.location)))))))

/-- Key equality for the comparator: all five sort fields agree. -/
def varyingKeyEq (c1 c2 : varying_component) : Prop :=
  c1.is_patch = c2.is_patch ∧
  c1.is_intra_stage_only = c2.is_intra_stage_only ∧
  c1.interp_type = c2.interp_type ∧
  c1.interp_loc = c2.interp_loc ∧
  c1.var.location = c2.var.location

/-- `u_bit_consecutive64(start, count)` from the external `u_math.h`:
`count` consecutive set bits starting at `start`, in 64-bit arithmetic. -/
def u_bit_consecutive64 (start count : Nat) : Nat :=
  if count = 64 then 2 ^ 64 - 1
  else ((2 ^ count - 1) * 2 ^ start) % 2 ^ 64

/-- `util_bitcount64` from the external `u_math.h`: population count. -/
def util_bitcount64 (n : Nat) : Nat :=
  if h : n = 0 then 0
  else n % 2 + util_bitcount64 (n / 2)
termination_by n
decreasing_by exact Nat.div_lt_self (Nat.pos_of_ne_zero h) Nat.one_lt_two

/-- Embedding of `get_linked_variable_location` from
`nir_linking_helpers.c`.  The `unreachable` branch (a patch variable outside
both the patch range and the tess-factor/bounding-box range) is modelled as
0; theorems apply the function only under the source's implicit
precondition. -/
def get_linked_variable_location (location : Nat) (patch : Bool) : Nat :=
  if ¬ patch then location
  else if VARYING_SLOT_PATCH0 ≤ location then
    location - VARYING_SLOT_PATCH0 + 4
  else if VARYING_SLOT_TESS_LEVEL_OUTER ≤ location ∧
      location ≤ VARYING_SLOT_BOUNDING_BOX1 then
    location - VARYING_SLOT_TESS_LEVEL_OUTER
  else 0

/-- Embedding of `get_linked_variable_io_mask` from
`nir_linking_helpers.c`: `u_bit_consecutive64(0, slots)` where compact
variables round their component span up to whole slots. -/
def get_linked_variable_io_mask (var : NirVariable) : Nat :=
  let slots := if var.per_vertex then var.elem_type_slots
    else var.type_slots
  let length := if var.per_vertex then var.elem_type_length
    else var.type_length
  let slots := if var.compact then
      (var.location_frac + length + 4 - 1) / 4
    else slots
  u_bit_consecutive64 0 slots

/-- The mask-building loops of `nir_assign_linked_io_var_locations`:
`mask << loc` ORed per variable of the given mode in 64-bit arithmetic
(patch and non-patch masks separate). -/
def linkedMasks (vars : List NirVariable) (mode : VarMode) : Nat × Nat :=
  vars.foldl
    (fun acc var =>
      if var.mode = mode then
        let mask := get_linked_variable_io_mask var
        let loc := get_linked_variable_location var.location.toNat var.patch
        if var.patch then (acc.1, acc.2 ||| (mask * 2 ^ loc) % 2 ^ 64)
        else (acc.1 ||| (mask * 2 ^ loc) % 2 ^ 64, acc.2)
      else acc)
    (0, 0)

/-- The unions `io_mask` / `patch_io_mask` of
`nir_assign_linked_io_var_locations`: producer-written ORed with
consumer-read linked slot masks. -/
def linkedIoMasks (producer consumer : NirShader) : Nat × Nat :=
  let pm := linkedMasks producer.vars VarMode.shader_out
  let cm := linkedMasks consumer.vars VarMode.shader_in
  (pm.1 ||| cm.1, pm.2 ||| cm.2)

/-- The driver location `nir_assign_linked_io_var_locations` gives each
variable: 4 × the number of union-mask bits strictly below the variable's
linked location. -/
def linked_driver_location (io_mask patch_io_mask : Nat)
    (var : NirVariable) : Nat :=
  let loc := get_linked_variable_location var.location.toNat var.patch
  if var.patch then
    util_bitcount64 (patch_io_mask &&& u_bit_consecutive64 0 loc) * 4
  else
    util_bitcount64 (io_mask &&& u_bit_consecutive64 0 loc) * 4

/-- Embedding of `nir_assign_linked_io_var_locations` from
`nir_linking_helpers.c`: build the union masks, then assign every producer
output and consumer input its linked driver location; also returns the
`nir_linked_io_var_info` pair of popcounts. -/
def nir_assign_linked_io_var_locations (producer consumer : NirShader) :
    NirShader × NirShader × (Nat × Nat) :=
  let masks := linkedIoMasks producer consumer
  ({ producer with
      vars := producer.vars.map fun var =>
        if var.mode = VarMode.shader_out then
          { var with
              driver_location := linked_driver_location masks.1 masks.2 var }
        else var },
   { consumer with
      vars := consumer.vars.map fun var =>
        if var.mode = VarMode.shader_in then
          { var with
              driver_location := linked_driver_location masks.1 masks.2 var }
        else var },
   (util_bitcount64 masks.1, util_bitcount64 masks.2))

/-- A scalar float output variable in generic slot 5
(`VARYING_SLOT_VAR0 + 5 = 37`), not always-active, used to instantiate the
removal theorems. -/
def varSlot5 : NirVariable where
  mode := VarMode.shader_out
  location := 37
  location_frac := 0
  patch := false
  per_view := false
  per_vertex := false
  always_active := false
  explicit_xfb_buffer := false
  compact := false
  driver_location := 0
  type_slots := 1
  elem_type_slots := 1
  type_length := 1
  elem_type_length := 1
  without_array_vector_elements := 1
  without_array_is_struct := false

/-- A producer shader holding only `varSlot5`. -/
def producerSlot5 : NirShader where
  stage := ShaderStage.vertex
  vars := [varSlot5]
  body := []

/-- A tessellation-control output variable with an unassigned (negative)
location. -/
def varNegLoc : NirVariable where
  mode := VarMode.shader_out
  location := -1
  location_frac := 0
  patch := false
  per_view := false
  per_vertex := false
  always_active := false
  explicit_xfb_buffer := false
  compact := false
  driver_location := 0
  type_slots := 1
  elem_type_slots := 1
  type_length := 1
  elem_type_length := 1
  without_array_vector_elements := 1
  without_array_is_struct := false

/-- A tessellation-control producer that reads its own output `varNegLoc`. -/
def tcsProducerNeg : NirShader where
  stage := ShaderStage.tess_ctrl
  vars := [varNegLoc]
  body := [NirInstr.load_deref VarMode.shader_out varNegLoc]

/-- A tessellation-evaluation consumer with no inputs. -/
def tesConsumerEmpty : NirShader where
  stage := ShaderStage.tess_eval
  vars := []
  body := []

/-- A tessellation-control output in generic slot 5 read by its own stage. -/
def varTcsRead : NirVariable where
  mode := VarMode.shader_out
  location := 37
  location_frac := 0
  patch := false
  per_view := false
  per_vertex := false
  always_active := false
  explicit_xfb_buffer := false
  compact := false
  driver_location := 0
  type_slots := 1
  elem_type_slots := 1
  type_length := 1
  elem_type_length := 1
  without_array_vector_elements := 1
  without_array_is_struct := false

/-- A tessellation-control producer that reads its own output `varTcsRead`. -/
def tcsProducerRead : NirShader where
  stage := ShaderStage.tess_ctrl
  vars := [varTcsRead]
  body := [NirInstr.load_deref VarMode.shader_out varTcsRead]

/-- A producer output in linked slot 33, for the linked-location theorems. -/
def varLinkedOut : NirVariable where
  mode := VarMode.shader_out
  location := 33
  location_frac := 0
  patch := false
  per_view := false
  per_vertex := false
  always_active := false
  explicit_xfb_buffer := false
  compact := false
  driver_location := 0
  type_slots := 1
  elem_type_slots := 1
  type_length := 1
  elem_type_length := 1
  without_array_vector_elements := 1
  without_array_is_struct := false

/-- A consumer input in the same linked slot 33. -/
def varLinkedIn : NirVariable where
  mode := VarMode.shader_in
  location := 33
  location_frac := 0
  patch := false
  per_view := false
  per_vertex := false
  always_active := false
  explicit_xfb_buffer := false
  compact := false
  driver_location := 0
  type_slots := 1
  elem_type_slots := 1
  type_length := 1
  elem_type_length := 1
  without_array_vector_elements := 1
  without_array_is_struct := false

/-- A producer shader holding only `varLinkedOut`. -/
def producerLinked : NirShader where
  stage := ShaderStage.vertex
  vars := [varLinkedOut]
  body := []

/-- A consumer shader holding only `varLinkedIn`. -/
def consumerLinked : NirShader where
  stage := ShaderStage.fragment
  vars := [varLinkedIn]
  body := []

theorem memcpy_of_lt (dst src : Mem) (dstOff srcOff a : Int) (n : Nat)
    (h : a < dstOff) : memcpy dst dstOff src srcOff n a = dst a := by
  unfold memcpy
  rw [if_neg]
  exact fun hc => (not_le.mpr h) hc.1

theorem memcpy_get (dst src : Mem) (dstOff srcOff : Int) (n k : Nat)
    (hk : k < n) : memcpy dst dstOff src srcOff n (dstOff + (k : Int))
      = src (srcOff + (k : Int)) := by
  unfold memcpy
  rw [if_pos ⟨by omega, by omega⟩]
  congr 1
  omega

theorem copyRows_below (src : Mem) (srcStride : Int) (dstStride w : Nat) :
    ∀ (height : Nat) (dst : Mem) (dstOff srcOff a : Int), a < dstOff →
      copyRows dst dstOff dstStride src srcOff srcStride w height a = dst a := by
  intro height
  induction height with
  | zero => intro dst dstOff srcOff a _; rfl
  | succ n ih =>
    intro dst dstOff srcOff a ha
    rw [copyRows]
    rw [ih _ _ _ _ (by omega)]
    exact memcpy_of_lt _ _ _ _ _ _ ha

theorem copyRows_get (src : Mem) (srcStride : Int) (dstStride w : Nat)
    (hw : w ≤ dstStride) :
    ∀ (height : Nat) (dst : Mem) (dstOff srcOff : Int) (i j : Nat),
      i < height → j < w →
      copyRows dst dstOff dstStride src srcOff srcStride w height
          (dstOff + ((i * dstStride : Nat) : Int) + (j : Nat))
        = src (srcOff + (i : Int) * srcStride + (j : Nat)) := by
  intro height
  induction height with
  | zero => intro _ _ _ i _ hi _; exact absurd hi (Nat.not_lt_zero i)
  | succ n ih =>
    intro dst dstOff srcOff i j hi hj
    rw [copyRows]
    cases i with
    | zero =>
      have haddr : dstOff + ((0 * dstStride : Nat) : Int) + (j : Nat)
          = dstOff + (j : Int) := by push_cast; ring
      rw [haddr]
      rw [copyRows_below src srcStride dstStride w n _ _ _ _ (by omega)]
      have := memcpy_get dst src dstOff srcOff w j hj
      rw [this]
      congr 1
      push_cast
      ring
    | succ k =>
      have haddr : dstOff + (((k + 1) * dstStride : Nat) : Int) + (j : Nat)
          = (dstOff + (dstStride : Int)) + ((k * dstStride : Nat) : Int) + (j : Nat) := by
        push_cast; ring
      rw [haddr, ih _ _ _ k j (Nat.lt_of_succ_lt_succ hi) hj]
      congr 1
      push_cast
      ring

theorem util_copy_rect_get (format : FormatDescription) (dst src : Mem)
    (dst_stride dst_x dst_y width height s src_x src_y i j : Nat)
    (hbw : format.block.width = 1) (hbh : format.block.height = 1)
    (hds : width * util_format_get_blocksize format ≤ dst_stride)
    (hss : width * util_format_get_blocksize format ≤ s)
    (hi : i < height) (hj : j < width * util_format_get_blocksize format) :
    util_copy_rect dst format dst_stride dst_x dst_y width height src
        (s : Int) src_x src_y
        ((dst_x * util_format_get_blocksize format + dst_y * dst_stride
            + i * dst_stride + j : Nat) : Int)
      = src ((src_x * util_format_get_blocksize format + src_y * s
            + i * s + j : Nat) : Int) := by
  have h0 : ¬ ((s : Int) < 0) := by omega
  unfold util_copy_rect
  simp only [hbw, hbh, Nat.div_one, Nat.add_sub_cancel, if_neg h0]
  set bs := util_format_get_blocksize format with hbs
  split_ifs with hfast
  · have hsd : width * bs = s := by exact_mod_cast hfast.2
    have hds2 : dst_stride = s := by rw [← hfast.1, hsd]
    subst hds2
    have hkey : i * dst_stride + j < height * (width * bs) := by
      calc i * dst_stride + j < i * dst_stride + width * bs := Nat.add_lt_add_left hj _
        _ ≤ height * (width * bs) := by
            rw [← hsd]
            have hstep : i * (width * bs) + width * bs = (i + 1) * (width * bs) := by ring
            rw [hstep]
            exact Nat.mul_le_mul_right _ hi
    have haddr : ((dst_x * bs + dst_y * dst_stride + i * dst_stride + j : Nat) : Int)
        = ((dst_x * bs : Nat) : Int) + ((dst_y * dst_stride : Nat) : Int)
          + ((i * dst_stride + j : Nat) : Int) := by push_cast; ring
    rw [haddr, memcpy_get _ _ _ _ _ _ hkey]
    congr 1
    push_cast
    ring
  · have haddr : ((dst_x * bs + dst_y * dst_stride + i * dst_stride + j : Nat) : Int)
        = (((dst_x * bs : Nat) : Int) + ((dst_y * dst_stride : Nat) : Int))
          + ((i * dst_stride : Nat) : Int) + (j : Nat) := by push_cast; ring
    rw [haddr, copyRows_get src (s : Int) dst_stride (width * bs) hds height _ _ _ i j hi hj]
    try congr 1
    try push_cast
    try ring

/-- C2: when `util_is_format_compatible` holds in both directions (and the
formats have the 1×1 blocks plain layouts guarantee, with equal block bits),
`util_format_translate` A→B takes the compatible-copy path (`util_copy_rect`),
the translation back B→A takes it as well, and the round trip reproduces every
byte of the source rectangle bit for bit. -/
theorem c2_compatible_roundtrip (A B : FormatDescription)
    (pack : PackDescription) (unpack : UnpackDescription) (ops : FormatOps)
    (alloc : Bool) (dst src back : Mem)
    (dst_stride src_stride dst_x dst_y src_x src_y width height : Nat)
    (hAB : util_is_format_compatible A B = true)
    (hBA : util_is_format_compatible B A = true)
    (hbwA : A.block.width = 1) (hbhA : A.block.height = 1)
    (hbwB : B.block.width = 1) (hbhB : B.block.height = 1)
    (hbits : A.block.bits = B.block.bits)
    (hds : width * util_format_get_blocksize B ≤ dst_stride)
    (hss : width * util_format_get_blocksize B ≤ src_stride) :
    util_format_translate B dst dst_stride dst_x dst_y A src
        src_stride src_x src_y width height pack unpack ops alloc
      = some (util_copy_rect dst B dst_stride dst_x dst_y width height src
          (src_stride : Int) src_x src_y)
    ∧ util_format_translate A back src_stride src_x src_y B
        (util_copy_rect dst B dst_stride dst_x dst_y width height src
          (src_stride : Int) src_x src_y)
        dst_stride dst_x dst_y width height pack unpack ops alloc
      = some (util_copy_rect back A src_stride src_x src_y width height
          (util_copy_rect dst B dst_stride dst_x dst_y width height src
            (src_stride : Int) src_x src_y)
          (dst_stride : Int) dst_x dst_y)
    ∧ ∀ i j, i < height → j < width * util_format_get_blocksize A →
        util_copy_rect back A src_stride src_x src_y width height
            (util_copy_rect dst B dst_stride dst_x dst_y width height src
              (src_stride : Int) src_x src_y)
            (dst_stride : Int) dst_x dst_y
          ((src_x * util_format_get_blocksize A + src_y * src_stride
              + i * src_stride + j : Nat) : Int)
        = src ((src_x * util_format_get_blocksize A + src_y * src_stride
              + i * src_stride + j : Nat) : Int) := by
  have hbseq : util_format_get_blocksize A = util_format_get_blocksize B := by
    unfold util_format_get_blocksize
    rw [hbits]
  refine ⟨?_, ?_, ?_⟩
  · unfold util_format_translate
    rw [if_pos hAB]
  · unfold util_format_translate
    rw [if_pos hBA]
  · intro i j hi hj
    rw [hbseq] at hj
    have houter := util_copy_rect_get A back
      (util_copy_rect dst B dst_stride dst_x dst_y width height src
        (src_stride : Int) src_x src_y)
      src_stride src_x src_y width height dst_stride dst_x dst_y i j
      hbwA hbhA (by rw [hbseq]; exact hss) (by rw [hbseq]; exact hds) hi
      (by rw [hbseq]; exact hj)
    have hinner := util_copy_rect_get B dst src dst_stride dst_x dst_y
      width height src_stride src_x src_y i j hbwB hbhB hds hss hi hj
    rw [hbseq] at houter
    rw [hbseq]
    rw [houter, hinner]

/-- C1: `util_is_format_compatible src dst` returns true iff either the two
format identifiers are equal, or all of: plain layouts on both sides, equal
total block bits, equal channel counts, equal colorspaces, equal per-channel
bit sizes at all four channel indices, and for every destination channel
index whose swizzle entry names a real channel (0–3), equal swizzle entries
and equal numeric type / normalized flag of the channel selected by that
swizzle value. -/
theorem c1_format_compatible_iff (src_desc dst_desc : FormatDescription) :
    util_is_format_compatible src_desc dst_desc = true ↔
      formatCompatibleSpec src_desc dst_desc := by
  unfold util_is_format_compatible formatCompatibleSpec
  split_ifs with h1 h2 h3 h4
  · simp [h1]
  · rw [false_iff]
    rintro (h | ⟨hl1, hl2, _⟩)
    · exact h1 h
    · rcases h2 with h2 | h2
      · exact h2 hl1
      · exact h2 hl2
  · rw [false_iff]
    rintro (h | ⟨_, _, hb, hn, hc, _⟩)
    · exact h1 h
    · rcases h3 with h3 | h3 | h3
      · exact h3 hb
      · exact h3 hn
      · exact h3 hc
  · push_neg at h2 h3
    simp only [List.all_eq_true, List.mem_range, decide_eq_true_eq] at h4
    simp only [List.all_eq_true, List.mem_range]
    constructor
    · intro hall
      refine Or.inr ⟨h2.1, h2.2, h3.1, h3.2.1, h3.2.2, h4, ?_⟩
      intro i hi hlt
      have hfi := hall i hi
      rw [if_pos hlt] at hfi
      simp only [Bool.and_eq_true, decide_eq_true_eq] at hfi
      exact ⟨hfi.1.1, hfi.1.2, hfi.2⟩
    · rintro (h | ⟨_, _, _, _, _, _, hsw⟩)
      · exact absurd h h1
      · intro i hi
        by_cases hlt : dst_desc.swizzle i < 4
        · rw [if_pos hlt]
          obtain ⟨e1, e2, e3⟩ := hsw i hi hlt
          simp [e1, e2, e3]
        · rw [if_neg hlt]
  · rw [false_iff]
    rintro (h | ⟨_, _, _, _, _, hs, _⟩)
    · exact h1 h
    · refine h4 ?_
      simp only [List.all_eq_true, List.mem_range, decide_eq_true_eq]
      intro i hi
      exact hs i hi

/-- C2 witness: a concrete self-compatible translation takes the copy path. -/
theorem c2_compatible_roundtrip_witness :
    util_is_format_compatible descR32Sint descR32Sint = true ∧
    util_format_translate descR32Sint (fun _ => 0) 4 0 0 descR32Sint
        (fun _ => 1) 4 0 0 1 1 allPack allUnpack idOps true
      = some (util_copy_rect (fun _ => 0) descR32Sint 4 0 0 1 1
          (fun _ => 1) (4 : Int) 0 0) :=
  ⟨by decide,
   (c2_compatible_roundtrip descR32Sint descR32Sint allPack allUnpack idOps
      true (fun _ => 0) (fun _ => 1) (fun _ => 2) 4 4 0 0 0 0 1 1
      (by decide) (by decide) rfl rfl rfl rfl rfl (by decide) (by decide)).1⟩

/-- C3 counterexample: `util_format_translate` can fail even though every
unpack and pack capability is present and the scratch allocation succeeds:
a pure-signed-integer source paired with a pure-unsigned-integer destination
fails on the integer path's numeric-domain check, refuting the claim that
failure occurs only on a missing capability or a failed allocation. -/
theorem c3_counterexample :
    util_format_is_pure_sint descR32Sint = true ∧
    util_format_is_pure_sint descR32Uint = false ∧
    util_format_translate descR32Uint (fun _ => 0) 4 0 0 descR32Sint
      (fun _ => 0) 4 0 0 1 1 allPack allUnpack idOps true = none := by
  refine ⟨by decide, by decide, ?_⟩
  rfl

/-- C3 (amended): `util_format_translate` returns failure only when a
required unpack or pack capability is absent for the chosen conversion path,
a scratch allocation fails, or — on the pure-integer path — exactly one of
the two formats is pure-signed-integer; on the depth/stencil path a depth or
stencil channel whose capability is missing on either side is skipped
silently (the path always succeeds), and with the 1×1 blocks of
depth/stencil formats the row step equals 1. -/
theorem c3_translate_failure_only (dstD srcD : FormatDescription)
    (pack : PackDescription) (unpack : UnpackDescription) (ops : FormatOps)
    (alloc : Bool) (dst src : Mem)
    (dst_stride dst_x dst_y src_stride src_x src_y width height : Nat) :
    (util_format_translate dstD dst dst_stride dst_x dst_y srcD src
        src_stride src_x src_y width height pack unpack ops alloc = none →
      alloc = false ∨
      ((util_format_fits_8unorm srcD = true ∨ util_format_fits_8unorm dstD = true) ∧
        (unpack.unpack_rgba_8unorm && pack.pack_rgba_8unorm) = false) ∨
      ¬ (util_format_is_pure_sint srcD = util_format_is_pure_sint dstD) ∨
      ((util_format_is_pure_uint srcD = true ∨ util_format_is_pure_uint dstD = true) ∧
        (unpack.unpack_rgba && pack.pack_rgba_uint) = false) ∨
      (unpack.unpack_rgba && pack.pack_rgba_float) = false)
    ∧ ((srcD.colorspace = FormatColorspace.zs ∨
        dstD.colorspace = FormatColorspace.zs) →
        ∃ m, util_format_translate dstD dst dst_stride dst_x dst_y srcD src
          src_stride src_x src_y width height pack unpack ops alloc = some m)
    ∧ (dstD.block.height = 1 → srcD.block.height = 1 →
        translate_y_step dstD srcD = 1) := by
  refine ⟨?_, ?_, ?_⟩
  · intro hnone
    unfold util_format_translate at hnone
    split_ifs at hnone with h1 h2 h3 h4 h5 h6 h7 h8 h9 h10 h11 <;>
      simp only [Bool.not_eq_true] at * <;> tauto
  · intro hzs
    by_cases h1 : util_is_format_compatible srcD dstD = true
    · exact ⟨_, by unfold util_format_translate; rw [if_pos h1]⟩
    · unfold util_format_translate
      rw [if_neg h1, if_pos hzs]
      exact ⟨_, rfl⟩
  · intro hd hs
    unfold translate_y_step
    rw [hd, hs]
    decide

/-- C3 witness: on a depth/stencil translation with every depth and stencil
capability absent, the translator still succeeds (the channels are silently
skipped). -/
theorem c3_translate_failure_only_witness :
    (descZ24.colorspace = FormatColorspace.zs ∨
      descR32Uint.colorspace = FormatColorspace.zs) ∧
    (∃ m, util_format_translate descR32Uint (fun _ => 0) 4 0 0 descZ24
      (fun _ => 0) 4 0 0 1 1 noPack noUnpack idOps true = some m) ∧
    translate_y_step descR32Uint descZ24 = 1 :=
  ⟨Or.inl rfl,
   (c3_translate_failure_only descR32Uint descZ24 noPack noUnpack idOps true
      (fun _ => 0) (fun _ => 0) 4 0 0 4 0 0 1 1).2.1 (Or.inl rfl),
   (c3_translate_failure_only descR32Uint descZ24 noPack noUnpack idOps true
      (fun _ => 0) (fun _ => 0) 4 0 0 4 0 0 1 1).2.2 rfl rfl⟩

/-- C4: on a non-compatible, non-depth/stencil pair where neither side fits
8-bit unorm, a pure-signed-integer format paired with a format that is not
pure-signed-integer makes `util_format_translate` fail without converting:
signed-integer data is never repacked through another domain's path. -/
theorem c4_sint_never_reinterpreted (dstD srcD : FormatDescription)
    (pack : PackDescription) (unpack : UnpackDescription) (ops : FormatOps)
    (alloc : Bool) (dst src : Mem)
    (dst_stride dst_x dst_y src_stride src_x src_y width height : Nat)
    (hcompat : util_is_format_compatible srcD dstD = false)
    (hzs_s : srcD.colorspace ≠ FormatColorspace.zs)
    (hzs_d : dstD.colorspace ≠ FormatColorspace.zs)
    (hf8_s : util_format_fits_8unorm srcD = false)
    (hf8_d : util_format_fits_8unorm dstD = false)
    (hmix : util_format_is_pure_sint srcD ≠ util_format_is_pure_sint dstD) :
    util_format_translate dstD dst dst_stride dst_x dst_y srcD src
      src_stride src_x src_y width height pack unpack ops alloc = none := by
  have hsome : util_format_is_pure_sint srcD = true ∨
      util_format_is_pure_sint dstD = true := by
    cases hs : util_format_is_pure_sint srcD <;>
      cases hd : util_format_is_pure_sint dstD <;> simp_all
  unfold util_format_translate
  rw [if_neg (by simp [hcompat]), if_neg (by tauto),
    if_neg (by simp [hf8_s, hf8_d]), if_pos hsome, if_pos hmix]

/-- C4 witness: the concrete R32_SINT → R32_UINT translation fails. -/
theorem c4_sint_never_reinterpreted_witness :
    util_format_translate descR32Uint (fun _ => 0) 4 0 0 descR32Sint
      (fun _ => 0) 4 0 0 1 1 allPack allUnpack idOps true = none :=
  c4_sint_never_reinterpreted descR32Uint descR32Sint allPack allUnpack
    idOps true (fun _ => 0) (fun _ => 0) 4 0 0 4 0 0 1 1
    (by decide) (by decide) (by decide) (by decide) (by decide) (by decide)

theorem orAt_preserves (m : Nat → Nat) (idx v k b : Nat)
    (h : (m k).testBit b = true) : (orAt m idx v k).testBit b = true := by
  unfold orAt
  split_ifs with hk
  · subst hk
    simp [Nat.testBit_or, h]
  · exact h

theorem foldl_orAt_preserves (v : Nat) (f : Nat → Nat) (l : List Nat) :
    ∀ (m : Nat → Nat) (k b : Nat), (m k).testBit b = true →
      ((l.foldl (fun acc i => orAt acc (f i) v) m) k).testBit b = true := by
  induction l with
  | nil => intro m k b h; exact h
  | cons x xs ih =>
    intro m k b h
    exact ih _ _ _ (orAt_preserves _ _ _ _ _ h)

theorem foldl_orAt_includes (v : Nat) (f : Nat → Nat) (l : List Nat) :
    ∀ (m : Nat → Nat) (i b : Nat), i ∈ l → v.testBit b = true →
      ((l.foldl (fun acc j => orAt acc (f j) v) m) (f i)).testBit b = true := by
  induction l with
  | nil => intro m i b h _; cases h
  | cons x xs ih =>
    intro m i b hmem hv
    rcases List.mem_cons.mp hmem with rfl | hmem2
    · simp only [List.foldl_cons]
      apply foldl_orAt_preserves
      unfold orAt
      rw [if_pos rfl]
      simp [Nat.testBit_or, hv]
    · simp only [List.foldl_cons]
      exact ih _ _ _ hmem2 hv

theorem addVarBits_preserves (m : Nat → Nat) (var : NirVariable) (k b : Nat)
    (h : (m k).testBit b = true) : (addVarBits m var k).testBit b = true :=
  foldl_orAt_preserves _ _ _ _ _ _ h

theorem addVarBits_includes (m : Nat → Nat) (var : NirVariable) (b : Nat)
    (hnc : 1 ≤ get_num_components var)
    (hv : (get_variable_io_mask var).testBit b = true) :
    (addVarBits m var var.location_frac).testBit b = true := by
  have h0 : 0 ∈ List.range (get_num_components var) := List.mem_range.mpr hnc
  have hmain := foldl_orAt_includes (get_variable_io_mask var)
    (fun i => var.location_frac + i) (List.range (get_num_components var))
    m 0 b h0 hv
  simpa [addVarBits] using hmain

theorem tcs_read_step_preserves_fst (acc : (Nat → Nat) × (Nat → Nat))
    (instr : NirInstr) (k b : Nat) (h : (acc.1 k).testBit b = true) :
    ((tcs_read_step acc instr).1 k).testBit b = true := by
  cases instr with
  | load_deref mode v =>
    dsimp only [tcs_read_step]
    split_ifs
    · exact h
    · exact addVarBits_preserves _ _ _ _ h
    · exact h
  | other_instr => exact h

theorem tcs_read_step_preserves_snd (acc : (Nat → Nat) × (Nat → Nat))
    (instr : NirInstr) (k b : Nat) (h : (acc.2 k).testBit b = true) :
    ((tcs_read_step acc instr).2 k).testBit b = true := by
  cases instr with
  | load_deref mode v =>
    dsimp only [tcs_read_step]
    split_ifs
    · exact addVarBits_preserves _ _ _ _ h
    · exact h
    · exact h
  | other_instr => exact h

theorem tcsFold_preserves_fst (l : List NirInstr) :
    ∀ (acc : (Nat → Nat) × (Nat → Nat)) (k b : Nat),
      (acc.1 k).testBit b = true →
      ((l.foldl tcs_read_step acc).1 k).testBit b = true := by
  induction l with
  | nil => intro acc k b h; exact h
  | cons x xs ih =>
    intro acc k b h
    exact ih _ _ _ (tcs_read_step_preserves_fst _ _ _ _ h)

theorem tcsFold_preserves_snd (l : List NirInstr) :
    ∀ (acc : (Nat → Nat) × (Nat → Nat)) (k b : Nat),
      (acc.2 k).testBit b = true →
      ((l.foldl tcs_read_step acc).2 k).testBit b = true := by
  induction l with
  | nil => intro acc k b h; exact h
  | cons x xs ih =>
    intro acc k b h
    exact ih _ _ _ (tcs_read_step_preserves_snd _ _ _ _ h)

theorem tcsFold_includes (v : NirVariable) (b : Nat)
    (hv : (get_variable_io_mask v).testBit b = true)
    (hnc : 1 ≤ get_num_components v) (l : List NirInstr) :
    ∀ (acc : (Nat → Nat) × (Nat → Nat)),
      NirInstr.load_deref VarMode.shader_out v ∈ l →
      ((if v.patch then (l.foldl tcs_read_step acc).2
        else (l.foldl tcs_read_step acc).1) v.location_frac).testBit b = true := by
  induction l with
  | nil => intro acc h; cases h
  | cons x xs ih =>
    intro acc hmem
    rcases List.mem_cons.mp hmem with hx | hmem2
    · rw [← hx]
      simp only [List.foldl_cons]
      by_cases hp : v.patch
      · rw [if_pos hp]
        apply tcsFold_preserves_snd
        dsimp only [tcs_read_step]
        rw [if_pos rfl, if_pos hp]
        exact addVarBits_includes _ _ _ hnc hv
      · rw [if_neg hp]
        apply tcsFold_preserves_fst
        dsimp only [tcs_read_step]
        rw [if_pos rfl, if_neg hp]
        exact addVarBits_includes _ _ _ hnc hv
    · simp only [List.foldl_cons]
      exact ih _ hmem2

theorem land_ne_zero_of_testBit (x y b : Nat) (hx : x.testBit b = true)
    (hy : y.testBit b = true) : x &&& y ≠ 0 := by
  intro h0
  have hb : (x &&& y).testBit b = true := by
    rw [Nat.testBit_and, hx, hy]
    rfl
  rw [h0] at hb
  simp at hb

/-- C9: when the channel selected by swizzle entry 0 is unsigned and
normalized, `util_get_depth_format_mrd` returns `1 / (2^n - 1)` for its bit
size `n`; for any other depth-channel type it returns the default
`1 / (2^24 - 1)`. -/
theorem c9_depth_mrd (desc : FormatDescription) :
    ((desc.channel (desc.swizzle 0)).type = FormatType.unsigned ∧
        (desc.channel (desc.swizzle 0)).normalized = true →
      util_get_depth_format_mrd desc
        = 1 / ((2 : ℚ) ^ (desc.channel (desc.swizzle 0)).size - 1)) ∧
    (¬ ((desc.channel (desc.swizzle 0)).type = FormatType.unsigned ∧
        (desc.channel (desc.swizzle 0)).normalized = true) →
      util_get_depth_format_mrd desc = 1 / ((2 : ℚ) ^ 24 - 1)) := by
  constructor
  · intro h
    unfold util_get_depth_format_mrd
    rw [if_pos h]
  · intro h
    unfold util_get_depth_format_mrd
    rw [if_neg h]

/-- C9 witness: a 24-bit normalized unsigned depth channel yields
`1 / 16777215` and an 8-bit one yields `1 / 255`. -/
theorem c9_depth_mrd_witness :
    util_get_depth_format_mrd descZ24 = 1 / 16777215 ∧
    util_get_depth_format_mrd descD8 = 1 / 255 := by
  constructor
  · rw [(c9_depth_mrd descZ24).1 (by decide)]
    norm_num [descZ24, PIPE_SWIZZLE_X]
  · rw [(c9_depth_mrd descD8).1 (by decide)]
    norm_num [descD8, PIPE_SWIZZLE_X]

/-- C10: `pipe_swizzle_4f` leaves a destination component untouched whenever
its swizzle entry is neither a real channel (0–3) nor the constant-0 or
constant-1 sentinel, whereas both views of `util_format_apply_color_swizzle`
write 0 for every such entry other than constant-1; consequently the two
operations disagree on a `PIPE_SWIZZLE_NONE` entry, where the output of
`pipe_swizzle_4f` depends on the destination's prior contents. -/
theorem c10_swizzle_none_divergence :
    (∀ (dst src : Fin 4 → ℚ) (swz : Fin 4 → Nat) (i : Fin 4),
      ¬ swz i ≤ PIPE_SWIZZLE_W → swz i ≠ PIPE_SWIZZLE_0 →
      swz i ≠ PIPE_SWIZZLE_1 → pipe_swizzle_4f dst src swz i = dst i) ∧
    (∀ (src : Fin 4 → ℚ) (swz : Fin 4 → Nat) (c : Fin 4),
      ¬ swz c ≤ PIPE_SWIZZLE_W → swz c ≠ PIPE_SWIZZLE_1 →
      util_format_apply_color_swizzle_f src swz c = 0) ∧
    (∀ (src : Fin 4 → Nat) (swz : Fin 4 → Nat) (c : Fin 4),
      ¬ swz c ≤ PIPE_SWIZZLE_W → swz c ≠ PIPE_SWIZZLE_1 →
      util_format_apply_color_swizzle_ui src swz c = 0) ∧
    pipe_swizzle_4f (fun _ => 2) (fun _ => 3) (fun _ => PIPE_SWIZZLE_NONE) 0
      ≠ util_format_apply_color_swizzle_f (fun _ => 3)
          (fun _ => PIPE_SWIZZLE_NONE) 0 ∧
    pipe_swizzle_4f (fun _ => 0) (fun _ => 3) (fun _ => PIPE_SWIZZLE_NONE) 0
      ≠ pipe_swizzle_4f (fun _ => 2) (fun _ => 3)
          (fun _ => PIPE_SWIZZLE_NONE) 0 := by
  refine ⟨?_, ?_, ?_, by decide, by decide⟩
  · intro dst src swz i h1 h2 h3
    unfold pipe_swizzle_4f
    rw [dif_neg h1, if_neg h2, if_neg h3]
  · intro src swz c h1 h2
    unfold util_format_apply_color_swizzle_f
    rw [dif_neg h1, if_neg h2]
  · intro src swz c h1 h2
    unfold util_format_apply_color_swizzle_ui
    rw [dif_neg h1, if_neg h2]

/-- C10 witness: the untouched-component and zero-writing behaviours at a
concrete `PIPE_SWIZZLE_NONE` input. -/
theorem c10_swizzle_none_divergence_witness :
    pipe_swizzle_4f (fun _ => 5) (fun _ => 7) (fun _ => PIPE_SWIZZLE_NONE) 0 = 5 ∧
    util_format_apply_color_swizzle_f (fun _ => 7)
      (fun _ => PIPE_SWIZZLE_NONE) 0 = 0 :=
  ⟨c10_swizzle_none_divergence.1 (fun _ => 5) (fun _ => 7)
      (fun _ => PIPE_SWIZZLE_NONE) 0 (by decide) (by decide) (by decide),
   c10_swizzle_none_divergence.2.1 (fun _ => 7)
      (fun _ => PIPE_SWIZZLE_NONE) 0 (by decide) (by decide)⟩

/-- C5: after `nir_remove_unused_io_vars`, every variable of the pass's mode
that is non-builtin (generic varying slot at or above `VARYING_SLOT_VAR0`,
or unassigned negative location), not always-active, not explicit-xfb, and
whose occupied io mask does not intersect the used mask indexed by its
component offset, appears with mode reclassified to `shader_temp` and
location 0. -/
theorem c5_remove_unused_io_vars (shader : NirShader) (mode : VarMode)
    (used used_patches : Nat → Nat) (var : NirVariable)
    (hmem : var ∈ shader.vars) (hmode : var.mode = mode)
    (hbuiltin : var.location < 0 ∨ (VARYING_SLOT_VAR0 : Int) ≤ var.location)
    (hact : var.always_active = false)
    (hxfb : var.explicit_xfb_buffer = false)
    (hused : (if var.patch then used_patches else used) var.location_frac
        &&& get_variable_io_mask var = 0) :
    { var with location := 0, mode := VarMode.shader_temp }
      ∈ (nir_remove_unused_io_vars shader mode used used_patches).vars := by
  unfold nir_remove_unused_io_vars
  simp only [List.mem_map]
  refine ⟨var, hmem, ?_⟩
  rw [if_pos hmode]
  simp only [remove_unused_io_var]
  rw [if_neg (by omega), if_neg (by simp [hact]), if_neg (by simp [hxfb]),
    if_pos hused]

/-- C5 witness: a producer output in generic slot 5 with an all-zero used
mask ends demoted to a temporary with location 0. -/
theorem c5_remove_unused_io_vars_witness :
    { varSlot5 with location := 0, mode := VarMode.shader_temp }
      ∈ (nir_remove_unused_io_vars producerSlot5 VarMode.shader_out
          (fun _ => 0) (fun _ => 0)).vars :=
  c5_remove_unused_io_vars producerSlot5 VarMode.shader_out
    (fun _ => 0) (fun _ => 0) varSlot5 (by decide) rfl (Or.inr (by decide))
    rfl rfl (by decide)

/-- C6 counterexample: a tessellation-control output with an unassigned
(negative) location is read by its own stage, yet `nir_remove_unused_varyings`
still demotes it to a temporary (its occupied io mask is 0, so the
intra-stage read contributes nothing), refuting the claim that every
tessellation-control output read by the same stage survives removal. -/
theorem c6_counterexample :
    NirInstr.load_deref VarMode.shader_out varNegLoc ∈ tcsProducerNeg.body ∧
    varNegLoc.mode = VarMode.shader_out ∧
    (nir_remove_unused_varyings tcsProducerNeg tesConsumerEmpty).1.vars
      = [{ varNegLoc with location := 0, mode := VarMode.shader_temp }] := by
  refine ⟨by decide, rfl, ?_⟩
  rfl

/-- C6 (amended): when the producer is a tessellation-control stage,
`nir_remove_unused_varyings` ORs the io mask of every output loaded by the
producer's own body into the read masks before removal, so every
tessellation-control output with a nonzero occupied mask and at least one
component that is read by the same stage survives removal unchanged, even
when no consumer input references it. -/
theorem c6_tcs_output_reads_survive (producer consumer : NirShader)
    (v : NirVariable)
    (hstage : producer.stage = ShaderStage.tess_ctrl)
    (hload : NirInstr.load_deref VarMode.shader_out v ∈ producer.body)
    (hmem : v ∈ producer.vars)
    (hmask : get_variable_io_mask v ≠ 0)
    (hnc : 1 ≤ get_num_components v) :
    v ∈ (nir_remove_unused_varyings producer consumer).1.vars := by
  obtain ⟨b, hb⟩ := Nat.ne_zero_implies_bit_true hmask
  simp only [nir_remove_unused_varyings, hstage, reduceIte,
    nir_remove_unused_io_vars, List.mem_map]
  refine ⟨v, hmem, ?_⟩
  by_cases hm : v.mode = VarMode.shader_out
  · rw [if_pos hm]
    simp only [remove_unused_io_var]
    have hbit := tcsFold_includes v b hb hnc producer.body
      ((gatherModeMasks consumer.vars VarMode.shader_in).1,
       (gatherModeMasks consumer.vars VarMode.shader_in).2) hload
    simp only [tcs_add_output_reads]
    split_ifs with h1 h2 h3 hp hc hc2
    · rfl
    · rfl
    · rfl
    · exfalso
      rw [if_pos hp] at hbit
      exact land_ne_zero_of_testBit _ _ b hbit hb hc
    · rfl
    · exfalso
      rw [if_neg hp] at hbit
      exact land_ne_zero_of_testBit _ _ b hbit hb hc2
    · rfl
  · rw [if_neg hm]

/-- C6 witness: a concrete tessellation-control output in generic slot 5,
read only by its own stage, survives a removal pass with an empty consumer. -/
theorem c6_tcs_output_reads_survive_witness :
    varTcsRead
      ∈ (nir_remove_unused_varyings tcsProducerRead tesConsumerEmpty).1.vars :=
  c6_tcs_output_reads_survive tcsProducerRead tesConsumerEmpty varTcsRead
    rfl (by decide) (by decide) (by decide) (by decide)

/-- C7: the varying-component comparator implements exactly the total
(pre)order given by the lexicographic key (patch-ness with non-patch first,
intra-stage-only last within each group, then interpolation mode, then
interpolation location, then the variable's original slot): negative iff
the first key is smaller, zero iff the keys are equal, positive iff the
second key is smaller. -/
theorem c7_cmp_varying_component_order (c1 c2 : varying_component) :
    (cmp_varying_component c1 c2 < 0 ↔ varyingKeyLt c1 c2) ∧
    (cmp_varying_component c1 c2 = 0 ↔ varyingKeyEq c1 c2) ∧
    (0 < cmp_varying_component c1 c2 ↔ varyingKeyLt c2 c1) := by
  unfold cmp_varying_component varyingKeyLt varyingKeyEq
  cases hp1 : c1.is_patch <;> cases hp2 : c2.is_patch <;>
    cases hq1 : c1.is_intra_stage_only <;> cases hq2 : c2.is_intra_stage_only <;>
      simp [hp1, hp2, hq1, hq2] <;> split_ifs <;> omega

/-- C8: `nir_assign_linked_io_var_locations` gives every producer output and
every consumer input a driver location equal to 4 × the number of set bits
below its linked slot in the union of producer-written and consumer-read
linked slot masks (patch and non-patch tracked separately); consequently a
producer output and a consumer input with equal patch-ness and equal linked
slot always receive equal driver locations. -/
theorem c8_linked_driver_locations (producer consumer : NirShader)
    (vout vin : NirVariable)
    (hvout : vout ∈ producer.vars) (hmo : vout.mode = VarMode.shader_out)
    (hvin : vin ∈ consumer.vars) (hmi : vin.mode = VarMode.shader_in) :
    ({ vout with driver_location := (linked_driver_location
          (linkedIoMasks producer consumer).1
          (linkedIoMasks producer consumer).2 vout) }
        ∈ (nir_assign_linked_io_var_locations producer consumer).1.vars) ∧
    ({ vin with driver_location := (linked_driver_location
          (linkedIoMasks producer consumer).1
          (linkedIoMasks producer consumer).2 vin) }
        ∈ (nir_assign_linked_io_var_locations producer consumer).2.1.vars) ∧
    (vout.patch = vin.patch →
      get_linked_variable_location vout.location.toNat vout.patch
        = get_linked_variable_location vin.location.toNat vin.patch →
      linked_driver_location (linkedIoMasks producer consumer).1
          (linkedIoMasks producer consumer).2 vout
        = linked_driver_location (linkedIoMasks producer consumer).1
          (linkedIoMasks producer consumer).2 vin) := by
  refine ⟨?_, ?_, ?_⟩
  · simp only [nir_assign_linked_io_var_locations, List.mem_map]
    exact ⟨vout, hvout, by rw [if_pos hmo]⟩
  · simp only [nir_assign_linked_io_var_locations, List.mem_map]
    exact ⟨vin, hvin, by rw [if_pos hmi]⟩
  · intro hpatch hloc
    simp only [linked_driver_location]
    rw [hloc, hpatch]

/-- C8 witness: a producer output and a consumer input both in linked slot
33 (non-patch) receive equal driver locations. -/
theorem c8_linked_driver_locations_witness :
    linked_driver_location (linkedIoMasks producerLinked consumerLinked).1
        (linkedIoMasks producerLinked consumerLinked).2 varLinkedOut
      = linked_driver_location (linkedIoMasks producerLinked consumerLinked).1
        (linkedIoMasks producerLinked consumerLinked).2 varLinkedIn :=
  (c8_linked_driver_locations producerLinked consumerLinked varLinkedOut
    varLinkedIn (by decide) rfl (by decide) rfl).2.2 rfl rfl

end OsMesa
